import Mathlib

/-!
Shallow embedding of the mutation/commit protocol of the `datastorers`
repository (`src/update.rs`), together with theorems checking the
natural-language specification against the code.

The store schema types (`Key`, `Mutation`, `MutationResult`,
`CommitResponse`, `BeginTransactionResponse`) come from the external
`google_datastore1` crate; only the fields the core reads or writes are
modelled.  The repository's own `entity.rs`, `error.rs` and
`connection.rs` are not part of the provided sources, so the thin types
they declare (`DatastoreEntity`, the error enums, the connection) are
modelled from the specification; every function of `update.rs` is
translated directly from the source.

Network effects are made explicit: the store connection is a `Store`
value holding the responses the remote store would give, and every
embedded network-calling function returns, next to its result, the
ordered list of requests it issued.
-/

namespace Datastorers

/-- One element of a Datastore key path (`google_datastore1::schemas::PathElement`):
an optional kind, and at most one of a numeric id or a string name. -/
structure PathElement where
  kind : Option String := none
  id : Option Int := none
  name : Option String := none
deriving DecidableEq, Repr

/-- A Datastore key (`google_datastore1::schemas::Key`): an optional path of
path elements.  The partition id is never read by the core and is omitted. -/
structure Key where
  path : Option (List PathElement) := none
deriving DecidableEq, Repr

/-- A typed property value.  Modelled from the spec: the Entity Record maps
property names to typed values; the core never inspects them. -/
inductive PropertyValue
  | strVal (s : String)
  | intVal (i : Int)
  | boolVal (b : Bool)
  | arrVal (l : List String)
deriving DecidableEq, Repr

/-- Modelled from the spec: the generic Entity Record (`DatastoreEntity` of the
repository's `entity.rs`, not under the provided sources): an optional
identity (`key`), an optional version token (`version`) and an ordered mapping
of property names to typed values.  The accessor methods `key()` and
`version()` of the source are the structure fields. -/
structure DatastoreEntity where
  key : Option Key
  version : Option Int
  properties : List (String × PropertyValue)
deriving DecidableEq, Repr

/-- Modelled from the spec: `DatastoreEntity::set_key` of the repository's
`entity.rs` (not under the provided sources) replaces the record's identity,
leaving version and properties untouched. -/
def DatastoreEntity.set_key (e : DatastoreEntity) (k : Option Key) : DatastoreEntity :=
  { e with key := k }

/-- A store entity (`google_datastore1::schemas::Entity`): a key and
properties, as produced by the mapping layer from an Entity Record. -/
structure Entity where
  key : Option Key
  properties : List (String × PropertyValue)
deriving DecidableEq, Repr

/-- Modelled from the spec: the entity mapping layer's conversion from the
generic Entity Record to a store entity (the `TryInto<Entity>` impl of the
repository's `entity.rs`, not under the provided sources).  The spec treats
the mapping layer as a black box whose conversions either fail with typed
parse errors or carry the record's identity and properties across; nothing
in the Entity Record itself can make this direction fail. -/
def DatastoreEntity.tryIntoEntity (e : DatastoreEntity) : Entity :=
  { key := e.key, properties := e.properties }

/-- Modelled from the spec: the client-protocol error kinds of the
repository's `error.rs` (not under the provided sources), as listed in the
spec's error handling design. -/
inductive DatastoreClientError
  | keyMissing
  | notFound
  | dataConflict
  | keyAssignmentFailed
  | deleteFailed
  | ambiguousResult
deriving DecidableEq, Repr

/-- A transport-layer error from the `google_datastore1` crate, opaque to the
core: it propagates unchanged. -/
inductive GoogleError
  | transport (msg : String)
deriving DecidableEq, Repr

/-- Modelled from the spec: the repository's top-level error type
(`DatastorersError` of `error.rs`, not under the provided sources): a
client-protocol error, a mapping-layer parse error, or a wrapped transport
error. -/
inductive DatastorersError
  | clientError (e : DatastoreClientError)
  | parseError (msg : String)
  | googleError (e : GoogleError)
deriving DecidableEq, Repr

/-- A single store mutation (`google_datastore1::schemas::Mutation`), with the
fields the core sets; all others stay at their defaults (`..Default::default()`
in the source). -/
structure Mutation where
  insert : Option Entity := none
  update : Option Entity := none
  upsert : Option Entity := none
  delete : Option Key := none
  base_version : Option Int := none
deriving DecidableEq, Repr

/-- A per-mutation result (`google_datastore1::schemas::MutationResult`):
an optional conflict flag, an optional assigned key, and the store-reported
post-commit version. -/
structure MutationResult where
  conflict_detected : Option Bool := none
  key : Option Key := none
  version : Option Int := none
deriving DecidableEq, Repr

/-- The store's commit response (`google_datastore1::schemas::CommitResponse`):
an optional list of per-mutation results. -/
structure CommitResponse where
  mutation_results : Option (List MutationResult)
deriving DecidableEq, Repr

/-- The store's begin-transaction response
(`google_datastore1::schemas::BeginTransactionResponse`): an optional
transaction handle. -/
structure BeginTransactionResponse where
  transaction : Option String
deriving DecidableEq, Repr

/-- A network request issued against the store, recorded with its payload.
`beginTxn` carries the (always absent) transaction options and the project
name; `commitTxn` carries the (always absent) mode, the submitted mutations,
the transaction handle and the project name. -/
inductive Request
  | beginTxn (transaction_options : Option Unit) (project_name : String)
  | commitTxn (mode : Option Unit) (mutations : List Mutation)
      (transaction : Option String) (project_name : String)
deriving DecidableEq, Repr

/-- The store connection together with the behaviour of the remote store for
one standalone call: the project name, the response to the (single)
begin-transaction request, and the response to the (single) commit request.
The embedded functions issue each request at most once per call, so constant
responses fully describe the store for that call. -/
structure Store where
  projectName : String
  beginResp : Except GoogleError BeginTransactionResponse
  commitResp : Except GoogleError CommitResponse

/-- `commit` of `src/update.rs` (lines 46-70): begin an implicit transaction,
then submit the mutations in a commit request tagged with the returned
transaction handle.  The second component is the ordered trace of requests
issued; a failing begin short-circuits before any commit request. -/
def commit (connection : Store) (mutations : List Mutation) :
    Except GoogleError CommitResponse × List Request :=
  match connection.beginResp with
  | .error e => (.error e, [Request.beginTxn none connection.projectName])
  | .ok begin_transaction =>
      (connection.commitResp,
        [Request.beginTxn none connection.projectName,
         Request.commitTxn none mutations begin_transaction.transaction
           connection.projectName])

/-- `expects_key_after_commit` of `src/update.rs` (lines 72-89): decide
whether the store is expected to assign a key. -/
def expects_key_after_commit (key : Option Key) :
    Except DatastoreClientError Bool :=
  match key with
  | some k =>
      match k.path with
      | some path =>
          match path with
          | first_path_element :: _ =>
              if first_path_element.name.isSome || first_path_element.id.isSome then
                .ok false
              else
                .ok true
          | [] => .ok false
      | none => .ok false
  | none => .error DatastoreClientError.keyMissing

/-- `parse_mutation_result` of `src/update.rs` (lines 91-98): fail with
`DataConflict` when the result's conflict flag is set to true, otherwise
return the result's key. -/
def parse_mutation_result (result : MutationResult) :
    Except DatastorersError (Option Key) :=
  match result.conflict_detected with
  | some true => .error (DatastorersError.clientError DatastoreClientError.dataConflict)
  | _ => .ok result.key

/-- `commit_one` of `src/update.rs` (lines 100-139): build one upsert
mutation for the entity, submit it standalone, and interpret the response.
The second component is the ordered trace of requests issued. -/
def commit_one (connection : Store) (entity : DatastoreEntity) :
    Except DatastorersError DatastoreEntity × List Request :=
  match expects_key_after_commit entity.key with
  | .error e => (.error (DatastorersError.clientError e), [])
  | .ok expects_key =>
      let base_version := entity.version
      let result_entity := entity
      let ent : Entity := entity.tryIntoEntity
      let mutation : Mutation := { upsert := some ent, base_version := base_version }
      let sent := commit connection [mutation]
      let result : Except DatastorersError DatastoreEntity :=
        match sent.1 with
        | .error e => .error (DatastorersError.googleError e)
        | .ok cre =>
            match cre.mutation_results with
            | some results =>
                match results with
                | [] =>
                    .error (DatastorersError.clientError
                      DatastoreClientError.keyAssignmentFailed)
                | [result] =>
                    match parse_mutation_result result with
                    | .error e => .error e
                    | .ok assigned_key =>
                        if expects_key then
                          match assigned_key with
                          | some key => .ok (result_entity.set_key (some key))
                          | none =>
                              .error (DatastorersError.clientError
                                DatastoreClientError.keyAssignmentFailed)
                        else
                          .ok result_entity
                | _ :: _ :: _ =>
                    .error (DatastorersError.clientError
                      DatastoreClientError.ambiguousResult)
            | none =>
                .error (DatastorersError.clientError
                  DatastoreClientError.keyAssignmentFailed)
      (result, sent.2)

/-- `delete_one` of `src/update.rs` (lines 141-164): require a resolved
identity, build one delete mutation, submit it standalone, and interpret the
response.  The second component is the ordered trace of requests issued. -/
def delete_one (connection : Store) (entity : DatastoreEntity) :
    Except DatastorersError Unit × List Request :=
  match entity.key with
  | none => (.error (DatastorersError.clientError DatastoreClientError.notFound), [])
  | some key =>
      let mutation : Mutation := { delete := some key, base_version := entity.version }
      let sent := commit connection [mutation]
      let result : Except DatastorersError Unit :=
        match sent.1 with
        | .error e => .error (DatastorersError.googleError e)
        | .ok cre =>
            match cre.mutation_results with
            | some results =>
                match results with
                | [] =>
                    .error (DatastorersError.clientError
                      DatastoreClientError.deleteFailed)
                | [result] =>
                    match parse_mutation_result result with
                    | .error e => .error e
                    | .ok _ => .ok ()
                | _ :: _ :: _ =>
                    .error (DatastorersError.clientError
                      DatastoreClientError.ambiguousResult)
            | none =>
                .error (DatastorersError.clientError
                  DatastoreClientError.deleteFailed)
      (result, sent.2)

/-! ## Concrete values used by the witness theorems -/

/-- A key whose single path element has neither a name nor an id: an
auto-generate placeholder. -/
def autoKey : Key := { path := some [{ kind := some "Test" }] }

/-- A key whose single path element carries a numeric id: an already
resolved identity. -/
def idKey : Key := { path := some [{ kind := some "Test", id := some 7 }] }

/-- A key as the store would assign it after an auto-generate upsert. -/
def assignedKey : Key := { path := some [{ kind := some "Test", id := some 42 }] }

/-- A new, never-versioned record carrying an auto-generate placeholder. -/
def entAuto : DatastoreEntity :=
  { key := some autoKey, version := none,
    properties := [("Name", PropertyValue.strVal "a")] }

/-- An already identified and versioned record. -/
def entIdent : DatastoreEntity :=
  { key := some idKey, version := some 5,
    properties := [("Name", PropertyValue.strVal "a"),
                   ("int_property", PropertyValue.intVal 3)] }

/-- A record with no identity placeholder at all. -/
def entNoKey : DatastoreEntity :=
  { key := none, version := some 5, properties := [] }

/-- A begin-transaction response carrying a handle. -/
def btOk : BeginTransactionResponse := { transaction := some "txn-1" }

/-- A mutation result whose conflict flag is set. -/
def conflictResult : MutationResult := { conflict_detected := some true }

/-- A clean mutation result carrying `assignedKey`. -/
def assignedResult : MutationResult := { key := some assignedKey }

/-- A commit response holding the single conflicting result. -/
def conflictResp : CommitResponse := { mutation_results := some [conflictResult] }

/-- A commit response holding the single key-assigning result. -/
def assignedResp : CommitResponse := { mutation_results := some [assignedResult] }

/-- A commit response holding an empty result list. -/
def emptyResp : CommitResponse := { mutation_results := some [] }

/-- A store whose begin succeeds with `btOk` and whose commit answers `cr`. -/
def storeWith (cr : Except GoogleError CommitResponse) : Store :=
  { projectName := "test-project", beginResp := .ok btOk, commitResp := cr }

/-- A store whose begin-transaction request fails at the transport layer. -/
def storeBeginFails : Store :=
  { projectName := "test-project",
    beginResp := .error (GoogleError.transport "boom"),
    commitResp := .ok { mutation_results := some [] } }

/-! ## Helper lemmas shared by several claim proofs -/

/-- A result whose conflict flag is not literally `some true` parses to its
key: a false or absent flag is no conflict. -/
theorem parse_no_conflict (r : MutationResult)
    (h : r.conflict_detected ≠ some true) :
    parse_mutation_result r = .ok r.key := by
  match hc : r.conflict_detected with
  | none => simp [parse_mutation_result, hc]
  | some false => simp [parse_mutation_result, hc]
  | some true => exact absurd hc h

/-- A succeeding identity-assignment check means the record has a key. -/
theorem expects_key_ok_has_key (e : DatastoreEntity) (b : Bool)
    (hk : expects_key_after_commit e.key = .ok b) :
    ∃ k, e.key = some k := by
  match hek : e.key with
  | some k => exact ⟨k, rfl⟩
  | none => rw [hek] at hk; exact Except.noConfusion hk

/-! ## Claim theorems -/

/-- C8: a standalone commit or delete call first issues begin_transaction,
then exactly one commit request tagged with the returned transaction handle;
the mutations are only ever sent in that second request, and if
begin_transaction fails no commit request is issued. -/
theorem commit_protocol_order (st : Store) (muts : List Mutation) :
    (∀ bt, st.beginResp = .ok bt →
      (commit st muts).2 =
        [Request.beginTxn none st.projectName,
         Request.commitTxn none muts bt.transaction st.projectName]) ∧
    (∀ e, st.beginResp = .error e →
      (commit st muts).2 = [Request.beginTxn none st.projectName]) := by
  constructor
  · intro bt hb
    simp [commit, hb]
  · intro e hb
    simp [commit, hb]

/-- Witness for C8 at a concrete store and mutation list, in both the
successful-begin and failed-begin cases. -/
theorem commit_protocol_order_witness :
    (commit (storeWith (.ok emptyResp)) []).2 =
      [Request.beginTxn none "test-project",
       Request.commitTxn none [] (some "txn-1") "test-project"] ∧
    (commit storeBeginFails []).2 = [Request.beginTxn none "test-project"] :=
  ⟨(commit_protocol_order (storeWith (.ok emptyResp)) []).1
      btOk rfl,
   (commit_protocol_order storeBeginFails []).2 (GoogleError.transport "boom") rfl⟩

/-- C5: the commit path builds exactly one mutation, of kind Upsert carrying
the converted entity, whose expected version (base_version) equals the
record's current version token (None for a never-versioned record), and
submits exactly that one mutation in the standalone call. -/
theorem commit_builds_single_upsert (st : Store) (e : DatastoreEntity) (b : Bool)
    (bt : BeginTransactionResponse)
    (hk : expects_key_after_commit e.key = .ok b)
    (hb : st.beginResp = .ok bt) :
    (commit_one st e).2 =
      [Request.beginTxn none st.projectName,
       Request.commitTxn none
         [{ upsert := some e.tryIntoEntity, base_version := e.version }]
         bt.transaction st.projectName] := by
  simp [commit_one, hk, commit, hb]

/-- Witness for C5: an already identified record with version 5 is submitted
as a single upsert mutation whose base_version is 5. -/
theorem commit_builds_single_upsert_witness :
    (commit_one (storeWith (.ok emptyResp)) entIdent).2 =
      [Request.beginTxn none "test-project",
       Request.commitTxn none
         [{ upsert := some entIdent.tryIntoEntity, base_version := some 5 }]
         (some "txn-1") "test-project"] :=
  commit_builds_single_upsert (storeWith (.ok emptyResp))
    entIdent false btOk rfl rfl

/-- C6: delete on a record with no identity fails with NotFound and issues no
request at all; delete on a record with an identity builds exactly one Delete
mutation addressing that identity and submits it alone. -/
theorem delete_requires_identity (st : Store) (e : DatastoreEntity) :
    (e.key = none →
      delete_one st e =
        (.error (DatastorersError.clientError DatastoreClientError.notFound), [])) ∧
    (∀ k bt, e.key = some k → st.beginResp = .ok bt →
      (delete_one st e).2 =
        [Request.beginTxn none st.projectName,
         Request.commitTxn none [{ delete := some k, base_version := e.version }]
           bt.transaction st.projectName]) := by
  constructor
  · intro hke
    simp [delete_one, hke]
  · intro k bt hke hb
    simp [delete_one, hke, commit, hb]

/-- Witness for C6 in both branches: a keyless record fails with NotFound
without touching the network, and an identified record sends one Delete
mutation for its key. -/
theorem delete_requires_identity_witness :
    delete_one (storeWith (.ok emptyResp)) entNoKey =
      (.error (DatastorersError.clientError DatastoreClientError.notFound), []) ∧
    (delete_one (storeWith (.ok emptyResp)) entIdent).2 =
      [Request.beginTxn none "test-project",
       Request.commitTxn none [{ delete := some idKey, base_version := some 5 }]
         (some "txn-1") "test-project"] :=
  ⟨(delete_requires_identity (storeWith (.ok emptyResp))
      entNoKey).1 rfl,
   (delete_requires_identity (storeWith (.ok emptyResp))
      entIdent).2 idKey btOk rfl rfl⟩

/-- C10: every commit request a delete call issues carries exactly one
mutation, a Delete of the record's identity whose expected version
(base_version) is the record's current version token — so a stale delete is
subject to the same optimistic-concurrency check as a commit. -/
theorem delete_mutation_carries_version (st : Store) (e : DatastoreEntity) (k : Key)
    (hk : e.key = some k) :
    ∀ mode ms txn pn,
      Request.commitTxn mode ms txn pn ∈ (delete_one st e).2 →
      ∃ m, ms = [m] ∧ m.delete = some k ∧ m.base_version = e.version := by
  intro mode ms txn pn hmem
  match hb : st.beginResp with
  | .error ge =>
      simp [delete_one, hk, commit, hb] at hmem
  | .ok bt =>
      simp [delete_one, hk, commit, hb] at hmem
      exact ⟨{ delete := some k, base_version := e.version }, by simp [hmem]⟩

/-- Witness for C10: the single commit request of a concrete delete carries a
Delete mutation with base_version 5. -/
theorem delete_mutation_carries_version_witness :
    ∃ m, [({ delete := some idKey, base_version := some 5 } : Mutation)] = [m] ∧
      m.delete = some idKey ∧ m.base_version = entIdent.version :=
  delete_mutation_carries_version (storeWith (.ok emptyResp))
    entIdent idKey rfl none
    [{ delete := some idKey, base_version := some 5 }] (some "txn-1") "test-project"
    (by simp [delete_one, commit, storeWith, entIdent, btOk])

/-- C1: with exactly one mutation result, a conflict_detected flag of true
makes both commit and delete fail with DataConflict, regardless of operation
kind and before any identity-assignment branch; a false or absent flag is
treated as no conflict. -/
theorem conflict_always_fails (st : Store) (e : DatastoreEntity) (b : Bool)
    (r : MutationResult) (bt : BeginTransactionResponse)
    (hk : expects_key_after_commit e.key = .ok b)
    (hb : st.beginResp = .ok bt)
    (hc : st.commitResp = .ok { mutation_results := some [r] }) :
    (r.conflict_detected = some true →
      (commit_one st e).1 =
        .error (DatastorersError.clientError DatastoreClientError.dataConflict) ∧
      (delete_one st e).1 =
        .error (DatastorersError.clientError DatastoreClientError.dataConflict)) ∧
    (r.conflict_detected ≠ some true → parse_mutation_result r = .ok r.key) := by
  obtain ⟨k, hke⟩ := expects_key_ok_has_key e b hk
  constructor
  · intro hcd
    constructor
    · simp [commit_one, hk, commit, hb, hc, parse_mutation_result, hcd]
    · simp [delete_one, hke, commit, hb, hc, parse_mutation_result, hcd]
  · exact parse_no_conflict r

/-- Witness for C1: a single conflicting result makes a concrete commit and a
concrete delete both fail with DataConflict. -/
theorem conflict_always_fails_witness :
    (commit_one (storeWith (.ok conflictResp)) entIdent).1 =
      .error (DatastorersError.clientError DatastoreClientError.dataConflict) ∧
    (delete_one (storeWith (.ok conflictResp)) entIdent).1 =
      .error (DatastorersError.clientError DatastoreClientError.dataConflict) :=
  (conflict_always_fails
      (storeWith (.ok conflictResp))
      entIdent false conflictResult btOk rfl rfl rfl).1 rfl

/-- C2: when the Identity Assignment Policy predicted true and the response
holds exactly one non-conflicting result, commit returns the original record
with its identity replaced by the assigned key, and fails with
KeyAssignmentFailed when the result carries no key. -/
theorem commit_new_record_key_assignment (st : Store) (e : DatastoreEntity)
    (r : MutationResult) (bt : BeginTransactionResponse)
    (hk : expects_key_after_commit e.key = .ok true)
    (hb : st.beginResp = .ok bt)
    (hc : st.commitResp = .ok { mutation_results := some [r] })
    (hncd : r.conflict_detected ≠ some true) :
    (∀ k, r.key = some k →
      (commit_one st e).1 = .ok { e with key := some k }) ∧
    (r.key = none →
      (commit_one st e).1 =
        .error (DatastorersError.clientError DatastoreClientError.keyAssignmentFailed)) := by
  have hp := parse_no_conflict r hncd
  constructor
  · intro k hkey
    simp [commit_one, hk, commit, hb, hc, hp, hkey, DatastoreEntity.set_key]
  · intro hkey
    simp [commit_one, hk, commit, hb, hc, hp, hkey]

/-- Witness for C2: a new record committed against a store that assigns a key
comes back as the same record carrying the assigned key. -/
theorem commit_new_record_key_assignment_witness :
    (commit_one (storeWith (.ok assignedResp)) entAuto).1 =
      .ok { entAuto with key := some assignedKey } :=
  (commit_new_record_key_assignment
      (storeWith (.ok assignedResp))
      entAuto assignedResult btOk rfl rfl rfl (by decide)).1
    assignedKey rfl

/-- C3: the Identity Assignment Policy fails with KeyMissing exactly when the
record has no identity at all; it answers true exactly when the identity's
path is non-empty and its first segment has neither a name nor an id, and
false exactly when an identity is present whose first path segment (if any)
already carries a name or an id. -/
theorem expects_key_characterization (key : Option Key) :
    (expects_key_after_commit key = .error DatastoreClientError.keyMissing ↔
      key = none) ∧
    (expects_key_after_commit key = .ok true ↔
      ∃ k p0 rest, key = some k ∧ k.path = some (p0 :: rest) ∧
        p0.name = none ∧ p0.id = none) ∧
    (expects_key_after_commit key = .ok false ↔
      ∃ k, key = some k ∧
        ∀ p0 rest, k.path = some (p0 :: rest) →
          (p0.name ≠ none ∨ p0.id ≠ none)) := by
  match key with
  | none => simp [expects_key_after_commit]
  | some k =>
    match hp : k.path with
    | none => simp [expects_key_after_commit, hp]
    | some [] => simp [expects_key_after_commit, hp]
    | some (p0 :: rest) =>
      match hn : p0.name, hi : p0.id with
      | none, none => simp [expects_key_after_commit, hp, hn, hi]
      | none, some i => simp [expects_key_after_commit, hp, hn, hi]
      | some n, none => simp [expects_key_after_commit, hp, hn, hi]
      | some n, some i => simp [expects_key_after_commit, hp, hn, hi]

/-- Witness for C3: the auto-generate placeholder key answers true, the
id-carrying key answers false, and an absent key fails with KeyMissing. -/
theorem expects_key_characterization_witness :
    expects_key_after_commit (some autoKey) = .ok true ∧
    expects_key_after_commit none = .error DatastoreClientError.keyMissing :=
  ⟨(expects_key_characterization (some autoKey)).2.1.mpr
      ⟨autoKey, { kind := some "Test" }, [], rfl, rfl, rfl, rfl⟩,
   (expects_key_characterization none).1.mpr rfl⟩

/-- C4: an empty or absent result set fails with KeyAssignmentFailed for a
commit and DeleteFailed for a delete; two or more results for the single
submitted mutation fail with AmbiguousResult for both. -/
theorem response_shape_errors (st : Store) (e : DatastoreEntity) (b : Bool)
    (bt : BeginTransactionResponse)
    (hk : expects_key_after_commit e.key = .ok b)
    (hb : st.beginResp = .ok bt) :
    ((st.commitResp = .ok { mutation_results := some [] } ∨
      st.commitResp = .ok { mutation_results := none }) →
      (commit_one st e).1 =
        .error (DatastorersError.clientError DatastoreClientError.keyAssignmentFailed) ∧
      (delete_one st e).1 =
        .error (DatastorersError.clientError DatastoreClientError.deleteFailed)) ∧
    (∀ r1 r2 rs, st.commitResp = .ok { mutation_results := some (r1 :: r2 :: rs) } →
      (commit_one st e).1 =
        .error (DatastorersError.clientError DatastoreClientError.ambiguousResult) ∧
      (delete_one st e).1 =
        .error (DatastorersError.clientError DatastoreClientError.ambiguousResult)) := by
  obtain ⟨k, hke⟩ := expects_key_ok_has_key e b hk
  constructor
  · rintro (hc | hc) <;>
      exact ⟨by simp [commit_one, hk, commit, hb, hc],
             by simp [delete_one, hke, commit, hb, hc]⟩
  · intro r1 r2 rs hc
    exact ⟨by simp [commit_one, hk, commit, hb, hc],
           by simp [delete_one, hke, commit, hb, hc]⟩

/-- Witness for C4: a concrete empty result set fails a commit with
KeyAssignmentFailed and a delete with DeleteFailed. -/
theorem response_shape_errors_witness :
    (commit_one (storeWith (.ok emptyResp)) entIdent).1 =
      .error (DatastorersError.clientError DatastoreClientError.keyAssignmentFailed) ∧
    (delete_one (storeWith (.ok emptyResp)) entIdent).1 =
      .error (DatastorersError.clientError DatastoreClientError.deleteFailed) :=
  (response_shape_errors (storeWith (.ok emptyResp))
      entIdent false btOk rfl rfl).1 (Or.inl rfl)

/-- C7: when the Identity Assignment Policy predicted false, a successful
commit returns the input record exactly — identity, version and properties
all unchanged — whatever the store returned. -/
theorem commit_existing_keeps_record (st : Store) (e e2 : DatastoreEntity)
    (hk : expects_key_after_commit e.key = .ok false)
    (hs : (commit_one st e).1 = .ok e2) :
    e2 = e := by
  simp only [commit_one, hk] at hs
  repeat' split at hs
  all_goals
    first
      | exact Except.noConfusion hs
      | (injection hs with h; exact h.symm)
      | simp_all

/-- Witness for C7: committing an already identified record against a store
that echoes back a key still returns the record unchanged. -/
theorem commit_existing_keeps_record_witness :
    (commit_one (storeWith (.ok assignedResp)) entIdent).1 = .ok entIdent ∧
    entIdent = entIdent :=
  ⟨rfl,
   commit_existing_keeps_record
     (storeWith (.ok assignedResp))
     entIdent entIdent rfl rfl⟩

/-- C9: a successful commit returns a record whose version token (and
properties) equal the input record's: the interpreter extracts only the
assigned key and never writes the store-reported post-commit version back. -/
theorem commit_result_version_unchanged (st : Store) (e e2 : DatastoreEntity)
    (hs : (commit_one st e).1 = .ok e2) :
    e2.version = e.version ∧ e2.properties = e.properties := by
  match hkk : expects_key_after_commit e.key with
  | .error er => simp [commit_one, hkk] at hs
  | .ok b =>
    simp only [commit_one, hkk] at hs
    repeat' split at hs
    all_goals
      first
        | exact Except.noConfusion hs
        | (injection hs with h; subst h; simp [DatastoreEntity.set_key])

/-- Witness for C9: a new record that gets a key assigned keeps its (absent)
version token and its properties. -/
theorem commit_result_version_unchanged_witness :
    ({ entAuto with key := some assignedKey } : DatastoreEntity).version =
        entAuto.version ∧
    ({ entAuto with key := some assignedKey } : DatastoreEntity).properties =
        entAuto.properties :=
  commit_result_version_unchanged
    (storeWith (.ok assignedResp))
    entAuto { entAuto with key := some assignedKey } rfl

end Datastorers
